import Mathlib

/-!
Verification of the NAT gateway lifecycle controller
(`internal/service/ec2/nat_gateway.go`): a shallow embedding of the
create/read/update/delete operations and of the state-refresh closure
`NGStateRefreshFunc`, with theorems settling the specification's claims.

Remote calls (`DescribeNatGateways`, `CreateNatGateway`, `DeleteNatGateway`,
`UpdateTags`, the waiters) are external collaborators: each embedded operation
takes the outcome of the remote call it issues as an explicit argument, and the
embedding reproduces the Go control flow on those outcomes.  Go's
`(value, error)` pairs are modelled with `Option`; a Go runtime panic
(out-of-range index, nil-pointer dereference) is an explicit `panicked`
outcome.
-/

/-- A typed remote-API error, mirroring `awserr.Error`: a string code plus a
message. -/
structure AWSError where
  code : String
  message : String
deriving DecidableEq, Repr

/-- A Go error value as produced by this file's source: either a raw AWS error,
an error wrapped with context via `fmt.Errorf(..., %w, err)`, or a plain text
error (`fmt.Errorf` with `%s`). -/
inductive GoError where
  | aws (e : AWSError)
  | wrap (msg : String) (inner : GoError)
  | str (msg : String)
deriving DecidableEq, Repr

/-- `aws.StringValue`: dereference a `*string`, with `nil` read as `""`. -/
def stringValue : Option String → String
  | none => ""
  | some s => s

/-- The textual rendering of a Go error (`err.Error()`), used where the source
formats an error with `%s`. -/
def errText : GoError → String
  | GoError.aws e => e.code ++ ": " ++ e.message
  | GoError.wrap m i => m ++ ": " ++ errText i
  | GoError.str m => m

/-- `strings.Contains` on the underlying character lists. -/
def infixOf (pat : List Char) : List Char → Bool
  | [] => pat.isEmpty
  | c :: cs => pat.isPrefixOf (c :: cs) || infixOf pat cs

/-- `strings.ToLower`, character by character (the state labels compared in
this source are ASCII). -/
def strToLower (s : String) : String := String.mk (s.data.map Char.toLower)

/-- `tfawserr.ErrMessageContains(err, code, message)`: `err` is a non-nil AWS
error whose code equals `code` and whose message contains `message`. -/
def ErrMessageContains (err : Option AWSError) (code message : String) : Bool :=
  match err with
  | none => false
  | some e => e.code == code && infixOf message.toList e.message.toList

/-- `tfawserr.ErrCodeEquals(err, code)`: `err` is a non-nil AWS error whose
code equals `code`. -/
def ErrCodeEquals (err : Option AWSError) (code : String) : Bool :=
  match err with
  | none => false
  | some e => e.code == code

/-- One entry of `ec2.NatGateway.NatGatewayAddresses` (all fields are
`*string` in the SDK). -/
structure NatGatewayAddress where
  allocationId : Option String
  networkInterfaceId : Option String
  privateIp : Option String
  publicIp : Option String
deriving DecidableEq, Repr

/-- The remote object `ec2.NatGateway` (the fields this controller reads).
Pointer-typed SDK fields are `Option`; `tags` models `[]*ec2.Tag` as
key/value pairs. -/
structure NatGateway where
  natGatewayId : Option String
  state : Option String
  connectivityType : Option String
  subnetId : Option String
  natGatewayAddresses : List NatGatewayAddress
  tags : List (String × String)
deriving DecidableEq, Repr

/-- `ec2.DescribeNatGatewaysOutput`. -/
structure DescribeNatGatewaysOutput where
  natGateways : List NatGateway
deriving DecidableEq, Repr

/-- `ec2.CreateNatGatewayOutput` (its `NatGateway` field is a pointer). -/
structure CreateNatGatewayOutput where
  natGateway : Option NatGateway
deriving DecidableEq, Repr

/-- The SDK state-label constant `ec2.NatGatewayStateDeleted`. -/
def NatGatewayStateDeleted : String := "deleted"

/-- The SDK state-label constant `ec2.NatGatewayStateDeleting`. -/
def NatGatewayStateDeleting : String := "deleting"

/-- The SDK state-label constant `ec2.NatGatewayStateFailed`. -/
def NatGatewayStateFailed : String := "failed"

/-- Modelled from the spec: the repository's not-found error-code constant
`ErrCodeNatGatewayNotFound` (declared in the package's errors file, which is
not among the given sources).  The spec calls it the "not-found" code; its
value matches the literal `"NatGatewayNotFound"` that `NGStateRefreshFunc`
pattern-matches in the same source file. -/
def ErrCodeNatGatewayNotFound : String := "NatGatewayNotFound"

/-- The result of one invocation of the refresh closure, Go type
`(interface\x7b\x7d, string, error)`:
* `ok ng s` is `(ng, s, nil)` — a non-nil object with its state label;
* `empty` is `(nil, "", nil)` — the "absent / empty state" return;
* `err e` is `(nil, "", e)` — a propagated query error;
* `panicked` — the Go code panics (index out of range on an empty
  `NatGateways` list, or nil-pointer dereference of `ng.State`). -/
inductive RefreshResult where
  | ok (ng : NatGateway) (state : String)
  | empty
  | err (e : GoError)
  | panicked
deriving DecidableEq, Repr

/-- `NGStateRefreshFunc(conn, id)` applied to the outcome
`(resp, err)` of the `DescribeNatGateways` call it issues:
a not-found error code sets `resp = nil`; any other error is returned;
a nil `resp` yields the empty state; otherwise `resp.NatGateways[0]` and
`*ng.State` are read (panicking exactly where Go would). -/
def NGStateRefreshFunc (resp : Option DescribeNatGatewaysOutput)
    (err : Option AWSError) : RefreshResult :=
  match err with
  | some e =>
    if ErrMessageContains (some e) "NatGatewayNotFound" "" then
      RefreshResult.empty
    else
      RefreshResult.err (GoError.aws e)
  | none =>
    match resp with
    | none => RefreshResult.empty
    | some r =>
      match r.natGateways with
      | [] => RefreshResult.panicked
      | ng :: _ =>
        match ng.state with
        | none => RefreshResult.panicked
        | some s => RefreshResult.ok ng s

/-- The tracked Terraform state of the resource: the identifier plus the
schema's fields.  Terraform stores a `TypeString` field set from a nil
`*string` as `""`. -/
structure ResourceData where
  id : String
  allocation_id : String
  connectivity_type : String
  network_interface_id : String
  private_ip : String
  public_ip : String
  subnet_id : String
  tags : List (String × String)
  tags_all : List (String × String)
deriving DecidableEq, Repr

/-- The outcome of a lifecycle operation together with the tracked state it
leaves behind: `ok` is a nil-error return, `err` an error return, `panicked`
a Go runtime panic. -/
inductive ReadOutcome where
  | ok (d : ResourceData)
  | err (e : GoError) (d : ResourceData)
  | panicked (d : ResourceData)
deriving DecidableEq, Repr

/-- The state labels of the `status` map in `resourceNatGatewayRead`:
membership (after `strings.ToLower`) classifies the object as gone. -/
def natGatewayGoneStates : List String :=
  [NatGatewayStateDeleted, NatGatewayStateDeleting, NatGatewayStateFailed]

/-- `resourceNatGatewayRead`, applied to the outcome `(resp, err)` of the
describe call made through `NGStateRefreshFunc`.  The two tag
transformations are external pure collaborators passed as arguments
(modelled from the spec, their code being outside the given sources):
`processTags` is `KeyValueTags(ng.Tags).IgnoreAWS().IgnoreConfig(cfg)` and
`removeDefault` is `.RemoveDefaultConfig(cfg).Map()`.  `d.Set` on a valid
string/map value returns nil, so those error branches are dead here. -/
def resourceNatGatewayRead (d : ResourceData)
    (resp : Option DescribeNatGatewaysOutput) (err : Option AWSError)
    (processTags : List (String × String) → List (String × String))
    (removeDefault : List (String × String) → List (String × String)) :
    ReadOutcome :=
  match NGStateRefreshFunc resp err with
  | RefreshResult.err e => ReadOutcome.err e d
  | RefreshResult.panicked => ReadOutcome.panicked d
  | RefreshResult.empty =>
    -- ngRaw == nil: remove from state, return nil
    ReadOutcome.ok { d with id := "" }
  | RefreshResult.ok ng state =>
    if strToLower state ∈ natGatewayGoneStates then
      ReadOutcome.ok { d with id := "" }
    else
      let d := { d with
        connectivity_type := stringValue ng.connectivityType,
        subnet_id := stringValue ng.subnetId }
      match ng.natGatewayAddresses with
      | [] => ReadOutcome.panicked d
      | address :: _ =>
        let d := { d with
          allocation_id := stringValue address.allocationId,
          network_interface_id := stringValue address.networkInterfaceId,
          private_ip := stringValue address.privateIp,
          public_ip := stringValue address.publicIp }
        let tags := processTags ng.tags
        ReadOutcome.ok { d with
          tags := removeDefault tags,
          tags_all := tags }

/-- `resourceNatGatewayUpdate`, applied to `d.GetChange("tags_all")`
(`oldTagsAll`, `newTagsAll`, with `d.HasChange` their inequality), the
outcome `updateTagsErr` of the `UpdateTags` call the changed branch issues,
and the describe outcome consumed by the trailing
`return resourceNatGatewayRead(d, meta)`. -/
def resourceNatGatewayUpdate (d : ResourceData)
    (oldTagsAll newTagsAll : List (String × String))
    (updateTagsErr : Option GoError)
    (resp : Option DescribeNatGatewaysOutput) (err : Option AWSError)
    (processTags : List (String × String) → List (String × String))
    (removeDefault : List (String × String) → List (String × String)) :
    ReadOutcome :=
  if oldTagsAll ≠ newTagsAll then
    match updateTagsErr with
    | some e =>
      ReadOutcome.err
        (GoError.str ("error updating EC2 NAT Gateway (" ++ d.id ++
          ") tags: " ++ errText e)) d
    | none => resourceNatGatewayRead d resp err processTags removeDefault
  else
    resourceNatGatewayRead d resp err processTags removeDefault

/-- `resourceNatGatewayDelete`, applied to the outcome `deleteErr` of the
`DeleteNatGateway` call and the outcome `waitErr` of the
`WaitNATGatewayDeleted` call.  The second component of the result records
whether the wait was invoked (i.e. whether control reached the
`WaitNATGatewayDeleted` line). -/
def resourceNatGatewayDelete (d : ResourceData)
    (deleteErr : Option AWSError) (waitErr : Option GoError) :
    Option GoError × Bool :=
  if ErrCodeEquals deleteErr ErrCodeNatGatewayNotFound then
    (none, false)
  else
    match deleteErr with
    | some e =>
      (some (GoError.wrap ("error deleting EC2 NAT Gateway (" ++ d.id ++ ")")
        (GoError.aws e)), false)
    | none =>
      match waitErr with
      | some e =>
        (some (GoError.wrap
          ("error waiting for EC2 NAT Gateway (" ++ d.id ++ ") delete") e),
          true)
      | none => (none, true)

/-- `d.GetOk` on a `TypeString` field: `ok` is false at the zero value. -/
def getOk (s : String) : Option String := if s = "" then none else some s

/-- The fields of `ec2.CreateNatGatewayInput` built by
`resourceNatGatewayCreate`; `tagSpecifications` carries the merged tag set
passed to `ec2TagSpecificationsFromKeyValueTags`. -/
structure CreateNatGatewayInput where
  allocationId : Option String
  connectivityType : Option String
  subnetId : Option String
  tagSpecifications : List (String × String)
deriving DecidableEq, Repr

/-- The request `resourceNatGatewayCreate` builds from the descriptor's
non-zero optional fields and the merged default+user tags
(`defaultTagsConfig.MergeTags` is an external pure collaborator, its result
passed in as `mergedTags`). -/
def natGatewayCreateInput (d : ResourceData)
    (mergedTags : List (String × String)) : CreateNatGatewayInput :=
  { allocationId := getOk d.allocation_id,
    connectivityType := getOk d.connectivity_type,
    subnetId := getOk d.subnet_id,
    tagSpecifications := mergedTags }

/-- `resourceNatGatewayCreate`, applied to the outcome
`(createResp, createErr)` of the `CreateNatGateway` call, the outcome
`waitErr` of `WaitNATGatewayCreated`, and the describe outcome consumed by
the trailing `return resourceNatGatewayRead(d, meta)`.  After a successful
create call the identifier is recorded
(`d.SetId(aws.StringValue(output.NatGateway.NatGatewayId))`, panicking where
Go would dereference a nil pointer). -/
def resourceNatGatewayCreate (d : ResourceData)
    (createResp : Option CreateNatGatewayOutput) (createErr : Option AWSError)
    (waitErr : Option GoError)
    (resp : Option DescribeNatGatewaysOutput) (err : Option AWSError)
    (processTags : List (String × String) → List (String × String))
    (removeDefault : List (String × String) → List (String × String)) :
    ReadOutcome :=
  match createErr with
  | some e =>
    ReadOutcome.err (GoError.wrap "error creating EC2 NAT Gateway"
      (GoError.aws e)) d
  | none =>
    match createResp with
    | none => ReadOutcome.panicked d
    | some output =>
      match output.natGateway with
      | none => ReadOutcome.panicked d
      | some ng =>
        let d := { d with id := stringValue ng.natGatewayId }
        match waitErr with
        | some e =>
          ReadOutcome.err (GoError.wrap
            ("error waiting for EC2 NAT Gateway (" ++ d.id ++ ") create") e) d
        | none => resourceNatGatewayRead d resp err processTags removeDefault

/-! Sample values used by concrete witnesses and counterexamples. -/

/-- A tracked state for a live gateway `nat-1`. -/
def dEx : ResourceData :=
  { id := "nat-1", allocation_id := "eipalloc-1", connectivity_type := "public",
    network_interface_id := "eni-1", private_ip := "10.0.0.5",
    public_ip := "3.3.3.3", subnet_id := "subnet-1",
    tags := [("Name", "gw")], tags_all := [("Name", "gw")] }

/-- A tracked state with all attribute fields at their zero values. -/
def dBlank : ResourceData :=
  { id := "nat-2", allocation_id := "", connectivity_type := "",
    network_interface_id := "", private_ip := "", public_ip := "",
    subnet_id := "", tags := [], tags_all := [] }

/-- A sample address entry. -/
def addrEx : NatGatewayAddress :=
  { allocationId := some "eipalloc-1", networkInterfaceId := some "eni-1",
    privateIp := some "10.0.0.5", publicIp := some "3.3.3.3" }

/-- A live (`available`) remote gateway with one address. -/
def ngLive : NatGateway :=
  { natGatewayId := some "nat-1", state := some "available",
    connectivityType := some "public", subnetId := some "subnet-1",
    natGatewayAddresses := [addrEx], tags := [("Name", "gw")] }

/-- A live (`available`) remote gateway whose address list is empty. -/
def ngNoAddr : NatGateway :=
  { natGatewayId := some "nat-1", state := some "available",
    connectivityType := some "public", subnetId := some "subnet-1",
    natGatewayAddresses := [], tags := [("Name", "gw")] }

/-- A second live gateway with an empty address list, in a private subnet. -/
def ngNoAddr2 : NatGateway :=
  { natGatewayId := some "nat-2", state := some "available",
    connectivityType := some "private", subnetId := some "subnet-2",
    natGatewayAddresses := [], tags := [] }

/-- `strings.Contains` with the empty pattern is always true. -/
theorem infixOf_nil (l : List Char) : infixOf [] l = true := by
  cases l <;> simp [infixOf, List.isPrefixOf]

/-- C1 (counterexample): a live (`available`) object whose address list is
empty is not mapped into the declarative state — `resourceNatGatewayRead`
panics on the out-of-range index `ng.NatGatewayAddresses[0]`, so no outcome
`ok` (mapped state, nil error) is produced. -/
theorem read_live_no_address_not_mapped :
    resourceNatGatewayRead dEx (some { natGateways := [ngNoAddr] }) none id id
      = ReadOutcome.panicked
          { dEx with connectivity_type := "public", subnet_id := "subnet-1" }
    ∧ ¬ ∃ d', resourceNatGatewayRead dEx (some { natGateways := [ngNoAddr] })
        none id id = ReadOutcome.ok d' := by
  have hpan : resourceNatGatewayRead dEx (some { natGateways := [ngNoAddr] })
      none id id = ReadOutcome.panicked
        { dEx with connectivity_type := "public", subnet_id := "subnet-1" } := by
    decide
  refine ⟨hpan, ?_⟩
  rintro ⟨d', h⟩
  rw [hpan] at h
  exact ReadOutcome.noConfusion h

/-- C1 (amended): for every probe outcome, if the probed object is absent
(nil) or its state label lowercases to one of `deleted`, `deleting`,
`failed`, Read clears the tracked identifier and returns no error; every
other (live) object **whose address list is nonempty** is mapped into the
declarative state (first address entry, attributes, tags) with no error. -/
theorem read_classifies_probe_outcome (d : ResourceData)
    (resp : Option DescribeNatGatewaysOutput) (err : Option AWSError)
    (pt rd : List (String × String) → List (String × String))
    (ng : NatGateway) (s : String) :
    (NGStateRefreshFunc resp err = RefreshResult.empty →
      resourceNatGatewayRead d resp err pt rd = ReadOutcome.ok { d with id := "" })
    ∧ (NGStateRefreshFunc resp err = RefreshResult.ok ng s →
        strToLower s ∈ natGatewayGoneStates →
        resourceNatGatewayRead d resp err pt rd = ReadOutcome.ok { d with id := "" })
    ∧ (NGStateRefreshFunc resp err = RefreshResult.ok ng s →
        strToLower s ∉ natGatewayGoneStates →
        ∀ a rest, ng.natGatewayAddresses = a :: rest →
        resourceNatGatewayRead d resp err pt rd = ReadOutcome.ok
          { d with
            connectivity_type := stringValue ng.connectivityType,
            subnet_id := stringValue ng.subnetId,
            allocation_id := stringValue a.allocationId,
            network_interface_id := stringValue a.networkInterfaceId,
            private_ip := stringValue a.privateIp,
            public_ip := stringValue a.publicIp,
            tags := rd (pt ng.tags),
            tags_all := pt ng.tags }) := by
  refine ⟨fun h => ?_, fun h hg => ?_, fun h hg a rest ha => ?_⟩
  · simp [resourceNatGatewayRead, h]
  · simp [resourceNatGatewayRead, h, hg]
  · simp [resourceNatGatewayRead, h, hg, ha]

/-- C1 (witness): the amended theorem at concrete inputs — a nil probe
clears the id of `dEx`, and a live one-address gateway is mapped. -/
theorem read_classifies_probe_outcome_witness :
    resourceNatGatewayRead dEx none none id id = ReadOutcome.ok { dEx with id := "" }
    ∧ resourceNatGatewayRead dBlank (some { natGateways := [ngLive] }) none id id
        = ReadOutcome.ok
            { dBlank with
              connectivity_type := "public", subnet_id := "subnet-1",
              allocation_id := "eipalloc-1", network_interface_id := "eni-1",
              private_ip := "10.0.0.5", public_ip := "3.3.3.3",
              tags := [("Name", "gw")], tags_all := [("Name", "gw")] } :=
  ⟨(read_classifies_probe_outcome dEx none none id id ngLive "available").1 rfl,
    (read_classifies_probe_outcome dBlank (some { natGateways := [ngLive] })
      none id id ngLive "available").2.2 rfl (by decide) addrEx [] rfl⟩

/-- A gateway in state `deleted` (otherwise like `ngLive`). -/
def ngDeleted : NatGateway := { ngLive with state := some "deleted" }

/-- C3 (counterexample): a live object with zero addresses makes Read panic
on `ng.NatGatewayAddresses[0]`; no error outcome — in particular no
`MalformedResponse` error — is returned (the name `MalformedResponse` occurs
nowhere in the source). -/
theorem read_empty_addresses_no_error_signal :
    resourceNatGatewayRead dBlank (some { natGateways := [ngNoAddr2] }) none id id
      = ReadOutcome.panicked
          { dBlank with connectivity_type := "private", subnet_id := "subnet-2" }
    ∧ ¬ ∃ e d', resourceNatGatewayRead dBlank (some { natGateways := [ngNoAddr2] })
        none id id = ReadOutcome.err e d' := by
  have hpan : resourceNatGatewayRead dBlank (some { natGateways := [ngNoAddr2] })
      none id id = ReadOutcome.panicked
        { dBlank with connectivity_type := "private", subnet_id := "subnet-2" } := by
    decide
  refine ⟨hpan, ?_⟩
  rintro ⟨e, d', h⟩
  rw [hpan] at h
  exact ReadOutcome.noConfusion h

/-- C3 (amended): for a live probed object, an empty address list makes Read
crash with an out-of-range index (no `MalformedResponse` error is returned);
a list with one or more entries always contributes the **first** entry's
`allocationId`, `networkInterfaceId`, `privateIp` and `publicIp`. -/
theorem read_address_handling (d : ResourceData)
    (resp : Option DescribeNatGatewaysOutput) (err : Option AWSError)
    (pt rd : List (String × String) → List (String × String))
    (ng : NatGateway) (s : String)
    (h : NGStateRefreshFunc resp err = RefreshResult.ok ng s)
    (hg : strToLower s ∉ natGatewayGoneStates) :
    (ng.natGatewayAddresses = [] →
      resourceNatGatewayRead d resp err pt rd = ReadOutcome.panicked
        { d with connectivity_type := stringValue ng.connectivityType,
                 subnet_id := stringValue ng.subnetId })
    ∧ ∀ a rest, ng.natGatewayAddresses = a :: rest →
        resourceNatGatewayRead d resp err pt rd = ReadOutcome.ok
          { d with
            connectivity_type := stringValue ng.connectivityType,
            subnet_id := stringValue ng.subnetId,
            allocation_id := stringValue a.allocationId,
            network_interface_id := stringValue a.networkInterfaceId,
            private_ip := stringValue a.privateIp,
            public_ip := stringValue a.publicIp,
            tags := rd (pt ng.tags),
            tags_all := pt ng.tags } := by
  constructor
  · intro ha
    simp [resourceNatGatewayRead, h, hg, ha]
  · intro a rest ha
    simp [resourceNatGatewayRead, h, hg, ha]

/-- C3 (witness): the amended theorem at a concrete live gateway with an
empty address list. -/
theorem read_address_handling_witness :
    resourceNatGatewayRead dEx (some { natGateways := [ngNoAddr] }) none id id
      = ReadOutcome.panicked
          { dEx with connectivity_type := "public", subnet_id := "subnet-1" } :=
  (read_address_handling dEx (some { natGateways := [ngNoAddr] }) none id id
    ngNoAddr "available" rfl (by decide)).1 rfl

/-- C6 (counterexample): a successful describe call whose non-nil response
holds zero matching objects does not yield the absent outcome — the prober
panics on `resp.NatGateways[0]`. -/
theorem refresh_zero_objects_crashes :
    NGStateRefreshFunc (some { natGateways := [] }) none = RefreshResult.panicked
    ∧ RefreshResult.panicked ≠ RefreshResult.empty :=
  ⟨rfl, by decide⟩

/-- C6 (amended): a successful describe call that yields a nil response makes
the State Prober report absent (no object, empty state label, no error); a
successful call whose non-nil response holds zero matching objects is
indexed out of range and crashes. -/
theorem refresh_nil_response_absent (r : DescribeNatGatewaysOutput)
    (h : r.natGateways = []) :
    NGStateRefreshFunc none none = RefreshResult.empty
    ∧ NGStateRefreshFunc (some r) none = RefreshResult.panicked := by
  constructor
  · rfl
  · simp [NGStateRefreshFunc, h]

/-- C6 (witness): the amended theorem at the empty response. -/
theorem refresh_nil_response_absent_witness :
    NGStateRefreshFunc none none = RefreshResult.empty
    ∧ NGStateRefreshFunc (some { natGateways := [] }) none
        = RefreshResult.panicked :=
  refresh_nil_response_absent { natGateways := [] } rfl

/-- C5: a describe-query failure whose error code is not the not-found code
is propagated verbatim by the State Prober (outcome `err`, never the absent
outcome `empty`). -/
theorem refresh_propagates_query_error (resp : Option DescribeNatGatewaysOutput)
    (e : AWSError) (h : e.code ≠ "NatGatewayNotFound") :
    NGStateRefreshFunc resp (some e) = RefreshResult.err (GoError.aws e) := by
  simp [NGStateRefreshFunc, ErrMessageContains, h]

/-- C5 (witness): an authorization failure is propagated. -/
theorem refresh_propagates_query_error_witness :
    NGStateRefreshFunc none
        (some { code := "UnauthorizedOperation", message := "not allowed" })
      = RefreshResult.err
          (GoError.aws { code := "UnauthorizedOperation", message := "not allowed" }) :=
  refresh_propagates_query_error none
    { code := "UnauthorizedOperation", message := "not allowed" } (by decide)

/-- C8: a describe call failing with the not-found error code and a describe
call yielding a nil response produce the identical outcome
`RefreshResult.empty`, i.e. `(nil, "", nil)`: no object, empty state label,
no error — indistinguishable to the caller. -/
theorem refresh_notfound_equals_nil_response
    (resp : Option DescribeNatGatewaysOutput) (e : AWSError)
    (h : e.code = "NatGatewayNotFound") :
    NGStateRefreshFunc resp (some e) = RefreshResult.empty
    ∧ NGStateRefreshFunc none none = RefreshResult.empty := by
  refine ⟨?_, rfl⟩
  have hc : ErrMessageContains (some e) "NatGatewayNotFound" "" = true := by
    simp [ErrMessageContains, h, infixOf_nil]
  simp [NGStateRefreshFunc, hc]

/-- C8 (witness): both conditions at concrete inputs (even a stale non-nil
response is discarded on the not-found code). -/
theorem refresh_notfound_equals_nil_response_witness :
    NGStateRefreshFunc (some { natGateways := [ngLive] })
        (some { code := "NatGatewayNotFound", message := "nat-1 does not exist" })
      = RefreshResult.empty
    ∧ NGStateRefreshFunc none none = RefreshResult.empty :=
  refresh_notfound_equals_nil_response (some { natGateways := [ngLive] })
    { code := "NatGatewayNotFound", message := "nat-1 does not exist" } rfl

/-- C9: when the probe invoked by Read returns an error, Read returns that
error unchanged (the bare `return err`) and the tracked state is exactly the
state before the call — no attribute and not the identifier is touched. -/
theorem read_propagates_probe_error (d : ResourceData)
    (resp : Option DescribeNatGatewaysOutput) (err : Option AWSError)
    (ge : GoError)
    (pt rd : List (String × String) → List (String × String))
    (h : NGStateRefreshFunc resp err = RefreshResult.err ge) :
    resourceNatGatewayRead d resp err pt rd = ReadOutcome.err ge d := by
  simp [resourceNatGatewayRead, h]

/-- C9 (witness): a throttling error is returned unchanged, with `dEx`
untouched. -/
theorem read_propagates_probe_error_witness :
    resourceNatGatewayRead dEx none
        (some { code := "RequestLimitExceeded", message := "throttled" }) id id
      = ReadOutcome.err
          (GoError.aws { code := "RequestLimitExceeded", message := "throttled" })
          dEx :=
  read_propagates_probe_error dEx none
    (some { code := "RequestLimitExceeded", message := "throttled" })
    (GoError.aws { code := "RequestLimitExceeded", message := "throttled" })
    id id (by decide)

/-- C10: whenever Read reports absent (nil object, or a state label
lowercasing into the gone set), its entire effect on the tracked state is
`id := ""`: `allocation_id`, `connectivity_type`, `network_interface_id`,
`private_ip`, `public_ip`, `subnet_id`, `tags` and `tags_all` all keep their
previous values, and no error is returned. -/
theorem read_absent_clears_only_id (d : ResourceData)
    (resp : Option DescribeNatGatewaysOutput) (err : Option AWSError)
    (pt rd : List (String × String) → List (String × String))
    (ng : NatGateway) (s : String)
    (h : NGStateRefreshFunc resp err = RefreshResult.empty ∨
      (NGStateRefreshFunc resp err = RefreshResult.ok ng s ∧
        strToLower s ∈ natGatewayGoneStates)) :
    resourceNatGatewayRead d resp err pt rd = ReadOutcome.ok { d with id := "" }
    ∧ ({ d with id := "" } : ResourceData).allocation_id = d.allocation_id
    ∧ ({ d with id := "" } : ResourceData).connectivity_type = d.connectivity_type
    ∧ ({ d with id := "" } : ResourceData).network_interface_id = d.network_interface_id
    ∧ ({ d with id := "" } : ResourceData).private_ip = d.private_ip
    ∧ ({ d with id := "" } : ResourceData).public_ip = d.public_ip
    ∧ ({ d with id := "" } : ResourceData).subnet_id = d.subnet_id
    ∧ ({ d with id := "" } : ResourceData).tags = d.tags
    ∧ ({ d with id := "" } : ResourceData).tags_all = d.tags_all := by
  refine ⟨?_, rfl, rfl, rfl, rfl, rfl, rfl, rfl, rfl⟩
  rcases h with h | ⟨h, hg⟩
  · simp [resourceNatGatewayRead, h]
  · simp [resourceNatGatewayRead, h, hg]

/-- C10 (witness): Read on a `deleted` gateway clears only the identifier of
`dEx`. -/
theorem read_absent_clears_only_id_witness :
    resourceNatGatewayRead dEx (some { natGateways := [ngDeleted] }) none id id
      = ReadOutcome.ok { dEx with id := "" } :=
  (read_absent_clears_only_id dEx (some { natGateways := [ngDeleted] }) none
    id id ngDeleted "deleted" (Or.inr ⟨by decide, by decide⟩)).1

/-- C2: Delete on the not-found error code returns success (`nil` error) with
the wait not invoked; any other delete-call error is propagated (wrapped
with context) with the wait not invoked; and the wait is invoked exactly
when the delete call returned no error. -/
theorem delete_idempotent_notfound (d : ResourceData) (e : AWSError)
    (w : Option GoError) :
    (e.code = ErrCodeNatGatewayNotFound →
      resourceNatGatewayDelete d (some e) w = (none, false))
    ∧ (e.code ≠ ErrCodeNatGatewayNotFound →
      resourceNatGatewayDelete d (some e) w =
        (some (GoError.wrap ("error deleting EC2 NAT Gateway (" ++ d.id ++ ")")
          (GoError.aws e)), false))
    ∧ (resourceNatGatewayDelete d none w).2 = true := by
  refine ⟨fun h => ?_, fun h => ?_, ?_⟩
  · simp [resourceNatGatewayDelete, ErrCodeEquals, h]
  · simp [resourceNatGatewayDelete, ErrCodeEquals, h]
  · cases w <;> simp [resourceNatGatewayDelete, ErrCodeEquals]

/-- C2 (witness): a not-found delete is a success with no wait; a successful
delete call reaches the wait. -/
theorem delete_idempotent_notfound_witness :
    resourceNatGatewayDelete dEx
        (some { code := "NatGatewayNotFound", message := "gone" })
        (some (GoError.str "unreached")) = (none, false)
    ∧ (resourceNatGatewayDelete dEx none none).2 = true :=
  ⟨(delete_idempotent_notfound dEx
      { code := "NatGatewayNotFound", message := "gone" }
      (some (GoError.str "unreached"))).1 rfl,
    (delete_idempotent_notfound dEx
      { code := "NatGatewayNotFound", message := "gone" } none).2.2⟩

/-- C4 (counterexample): Update on `dEx` with a successful tag-delta call and
describe outcome `(nil, nil)` returns the result of the implicit Read, which
clears the identifier — a non-tag field of the tracked state is modified, so
Update does not return straight after the tagging calls. -/
theorem update_probes_and_clears_id :
    resourceNatGatewayUpdate dEx [("Name", "gw")] [("Name", "gw2")] none
        none none id id
      = ReadOutcome.ok { dEx with id := "" }
    ∧ dEx.id = "nat-1" := by
  constructor
  · decide
  · rfl

/-- C4 (amended): after the tag delta is applied (successfully, or skipped
when `tags_all` is unchanged), Update performs an implicit Read and returns
exactly its result — so tracked state may change per Read's semantics. -/
theorem update_returns_read_result (d : ResourceData)
    (o n : List (String × String))
    (resp : Option DescribeNatGatewaysOutput) (err : Option AWSError)
    (pt rd : List (String × String) → List (String × String)) :
    resourceNatGatewayUpdate d o n none resp err pt rd
      = resourceNatGatewayRead d resp err pt rd := by
  unfold resourceNatGatewayUpdate
  split <;> rfl

/-- C7: Create returns an error when the create mutation call fails (state
untouched); when the post-create wait fails or times out it also returns an
error, and the tracked state returned with it already records the identifier
from the create call. -/
theorem create_error_paths (d : ResourceData) (e : AWSError)
    (output : CreateNatGatewayOutput) (ng : NatGateway) (ew : GoError)
    (createResp : Option CreateNatGatewayOutput) (waitErr : Option GoError)
    (resp : Option DescribeNatGatewaysOutput) (err : Option AWSError)
    (pt rd : List (String × String) → List (String × String)) :
    (resourceNatGatewayCreate d createResp (some e) waitErr resp err pt rd
      = ReadOutcome.err (GoError.wrap "error creating EC2 NAT Gateway"
          (GoError.aws e)) d)
    ∧ (output.natGateway = some ng →
      resourceNatGatewayCreate d (some output) none (some ew) resp err pt rd
        = ReadOutcome.err (GoError.wrap ("error waiting for EC2 NAT Gateway ("
            ++ stringValue ng.natGatewayId ++ ") create") ew)
            { d with id := stringValue ng.natGatewayId }) := by
  refine ⟨rfl, fun h => ?_⟩
  simp [resourceNatGatewayCreate, h]

/-- C7 (witness): a failing create call errors with the state untouched; a
failing wait errors with the new identifier recorded. -/
theorem create_error_paths_witness :
    resourceNatGatewayCreate dBlank none
        (some { code := "InvalidSubnet", message := "bad" }) none none none id id
      = ReadOutcome.err (GoError.wrap "error creating EC2 NAT Gateway"
          (GoError.aws { code := "InvalidSubnet", message := "bad" })) dBlank
    ∧ resourceNatGatewayCreate dBlank (some { natGateway := some ngLive }) none
        (some (GoError.str "timeout")) none none id id
      = ReadOutcome.err
          (GoError.wrap "error waiting for EC2 NAT Gateway (nat-1) create"
            (GoError.str "timeout")) { dBlank with id := "nat-1" } :=
  ⟨(create_error_paths dBlank { code := "InvalidSubnet", message := "bad" }
      { natGateway := some ngLive } ngLive (GoError.str "timeout") none none
      none none id id).1,
    (create_error_paths dBlank { code := "InvalidSubnet", message := "bad" }
      { natGateway := some ngLive } ngLive (GoError.str "timeout") none none
      none none id id).2 rfl⟩
